import Mathlib

set_option maxRecDepth 8192

/-!
Verification development for the dynamic plan-and-solve agent
(`4_3-dynamicPlanAndSolve.py`).  The reasoning engine (`llm_client.think`)
is modelled as an oracle `Nat → Option String` keyed by the index of the
call, `none` standing for the `None` the wrapper returns on an API error.
Python strings are modelled as Lean `String` (a structure over `List Char`),
and all string operations are spelled out over the character list.
-/

/-- Python truthiness fallback `x or d` for an optional string: both `None`
and the empty string are falsy, so both fall back to the default. -/
def pyOr (x : Option String) (dflt : String) : String :=
  match x with
  | none => dflt
  | some s => if s = "" then dflt else s

/-- Uppercase a string character by character, as `str.upper()` acts on the
ASCII tokens the evaluator matches. -/
def strUpper (s : String) : String := ⟨s.data.map Char.toUpper⟩

/-- Occurrence test: does `needle` occur as a contiguous substring of the
haystack?  This is the Python `in` operator on strings. -/
def infixB (needle : List Char) : List Char → Bool
  | [] => needle.isEmpty
  | c :: cs => needle.isPrefixOf (c :: cs) || infixB needle cs

/-- The Python `in` operator on strings. -/
def pyIn (needle hay : String) : Bool := infixB needle.data hay.data

/-- First occurrence of `sep` in a character list: the part before it and the
part after it, or `none` when `sep` does not occur. -/
def findSplit (sep : List Char) : List Char → Option (List Char × List Char)
  | [] => if sep.isEmpty then some ([], []) else none
  | c :: cs =>
    if sep.isPrefixOf (c :: cs) then some ([], (c :: cs).drop sep.length)
    else
      match findSplit sep cs with
      | some (pre, post) => some (c :: pre, post)
      | none => none

/-- Prefix of `s` up to the first occurrence of `sep`, all of `s` when `sep`
is absent: this is `s.split(sep)[0]`. -/
def takeUntil (sep : List Char) (s : List Char) : List Char :=
  match findSplit sep s with
  | none => s
  | some (pre, _) => pre

/-- Characters removed by `str.strip()`: Python string whitespace. -/
def pySpace (c : Char) : Bool :=
  c == ' ' || c == '\t' || c == '\n' || c == '\r' || c == Char.ofNat 11 || c == Char.ofNat 12

/-- Model of `str.strip()`. -/
def pyStrip (s : List Char) : List Char :=
  ((s.dropWhile pySpace).reverse.dropWhile pySpace).reverse

/-- Python literal values that `ast.literal_eval` can return, restricted to
the string, integer and (nested) list literals relevant to plan parsing. -/
inductive PyLit where
  | str (s : String)
  | int (n : Int)
  | list (xs : List PyLit)

mutual

/-- Decidable equality for `PyLit`. -/
def pyLitDecEq : (a b : PyLit) → Decidable (a = b)
  | PyLit.str a, PyLit.str b => decidable_of_iff (a = b) (by simp)
  | PyLit.str _, PyLit.int _ => Decidable.isFalse (fun h => PyLit.noConfusion h)
  | PyLit.str _, PyLit.list _ => Decidable.isFalse (fun h => PyLit.noConfusion h)
  | PyLit.int _, PyLit.str _ => Decidable.isFalse (fun h => PyLit.noConfusion h)
  | PyLit.int a, PyLit.int b => decidable_of_iff (a = b) (by simp)
  | PyLit.int _, PyLit.list _ => Decidable.isFalse (fun h => PyLit.noConfusion h)
  | PyLit.list _, PyLit.str _ => Decidable.isFalse (fun h => PyLit.noConfusion h)
  | PyLit.list _, PyLit.int _ => Decidable.isFalse (fun h => PyLit.noConfusion h)
  | PyLit.list a, PyLit.list b =>
    match pyLitListDecEq a b with
    | Decidable.isTrue h => Decidable.isTrue (by rw [h])
    | Decidable.isFalse h => Decidable.isFalse (by intro hh; injection hh; contradiction)

/-- Decidable equality for lists of `PyLit`. -/
def pyLitListDecEq : (a b : List PyLit) → Decidable (a = b)
  | [], [] => Decidable.isTrue rfl
  | [], _ :: _ => Decidable.isFalse (fun h => List.noConfusion h)
  | _ :: _, [] => Decidable.isFalse (fun h => List.noConfusion h)
  | a :: as, b :: bs =>
    match pyLitDecEq a b, pyLitListDecEq as bs with
    | Decidable.isTrue h1, Decidable.isTrue h2 => Decidable.isTrue (by rw [h1, h2])
    | Decidable.isFalse h1, _ => Decidable.isFalse (by intro hh; injection hh; contradiction)
    | _, Decidable.isFalse h2 => Decidable.isFalse (by intro hh; injection hh; contradiction)

end

instance : DecidableEq PyLit := pyLitDecEq

/-- Value of a run of decimal digits. -/
def digitsVal (ds : List Char) : Nat :=
  ds.foldl (fun a c => a * 10 + (c.toNat - 48)) 0

/-- The single-quote character. -/
def quoteS : Char := Char.ofNat 39

/-- The double-quote character. -/
def quoteD : Char := Char.ofNat 34

/-- The backslash character. -/
def backslashChar : Char := Char.ofNat 92

/-- Scan the body of a quoted string literal up to the closing quote `q`.
Escape sequences are not modelled: a backslash makes the scan fail. -/
def scanStrLit (q : Char) : List Char → Option (List Char × List Char)
  | [] => none
  | c :: cs =>
    if c = q then some ([], cs)
    else if c = backslashChar then none
    else
      match scanStrLit q cs with
      | some (body, rest) => some (c :: body, rest)
      | none => none

mutual

/-- Recursive-descent parser for a Python literal expression, the model of
`ast.literal_eval` over the supported grammar.  Returns the parsed value and
the unconsumed input. -/
def parseExpr : Nat → List Char → Option (PyLit × List Char)
  | 0, _ => none
  | Nat.succ fuel, cs0 =>
    let cs := cs0.dropWhile pySpace
    match cs with
    | [] => none
    | c :: rest =>
      if c = '[' then
        let rest1 := rest.dropWhile pySpace
        match rest1 with
        | ']' :: rest2 => some (PyLit.list [], rest2)
        | _ =>
          match parseExpr fuel rest1 with
          | some (x, rest2) => parseItems fuel [x] rest2
          | none => none
      else if c = quoteS ∨ c = quoteD then
        match scanStrLit c rest with
        | some (body, rest2) => some (PyLit.str ⟨body⟩, rest2)
        | none => none
      else if c = '-' then
        let r2 := rest.dropWhile pySpace
        let ds := r2.takeWhile Char.isDigit
        if ds.isEmpty then none
        else some (PyLit.int (-(Int.ofNat (digitsVal ds))), r2.drop ds.length)
      else
        let ds := cs.takeWhile Char.isDigit
        if ds.isEmpty then none
        else some (PyLit.int (Int.ofNat (digitsVal ds)), cs.drop ds.length)

/-- Parse the remaining items of a list literal after its first element;
`acc` holds the items read so far, in reverse. -/
def parseItems : Nat → List PyLit → List Char → Option (PyLit × List Char)
  | 0, _, _ => none
  | Nat.succ fuel, acc, cs0 =>
    let cs := cs0.dropWhile pySpace
    match cs with
    | ']' :: rest => some (PyLit.list acc.reverse, rest)
    | ',' :: rest =>
      let rest1 := rest.dropWhile pySpace
      match rest1 with
      | ']' :: rest2 => some (PyLit.list acc.reverse, rest2)
      | _ =>
        match parseExpr fuel rest1 with
        | some (x, rest2) => parseItems fuel (x :: acc) rest2
        | none => none
    | _ => none

end

/-- Model of `ast.literal_eval` on the supported grammar: parse one literal
expression, allowing surrounding whitespace; trailing garbage or any other
shape is a parse failure (`none`, standing for the raised error). -/
def literalEval (s : String) : Option PyLit :=
  match parseExpr (2 * s.data.length + 2) s.data with
  | some (v, rest) => if (rest.dropWhile pySpace).isEmpty then some v else none
  | none => none

/-- The opening fence tag the planner's parser splits on. -/
def pythonFence : List Char := "```python".data

/-- The plain fence the extracted segment is cut at. -/
def plainFence : List Char := "```".data

/-- The `plan_str` extraction
`response_text.split("```python")[1].split("```")[0].strip()`; `none` models
the `IndexError` raised when no `"```python"` fence is present. -/
def planStrOf (response_text : String) : Option String :=
  match findSplit pythonFence response_text.data with
  | none => none
  | some (_, post) => some ⟨pyStrip (takeUntil plainFence (takeUntil pythonFence post))⟩

/-- `Planner.plan`: parse the engine reply (`llm_client.think(...) or ""`)
into a plan list.  A missing fence (`IndexError`), a malformed literal
(`ValueError` or `SyntaxError`) and a non-list literal all yield the empty
plan instead of an exception. -/
def Planner.plan (resp : Option String) : List PyLit :=
  let response_text := pyOr resp ""
  match planStrOf response_text with
  | none => []
  | some plan_str =>
    match literalEval plan_str with
    | some (PyLit.list xs) => xs
    | some _ => []
    | none => []

/-- `Evaluator.evaluate`: classify the engine reply
(`llm_client.think(...) or "FAILURE_REPLAN"`) by substring matching on the
uppercased text, `"SUCCESS"` first, then `"FAILURE_RETRY"`, defaulting to
`"FAILURE_REPLAN"`. -/
def evaluate (resp : Option String) : String :=
  let response_text := pyOr resp "FAILURE_REPLAN"
  if pyIn "SUCCESS" (strUpper response_text) then "SUCCESS"
  else if pyIn "FAILURE_RETRY" (strUpper response_text) then "FAILURE_RETRY"
  else "FAILURE_REPLAN"

/-- `DynamicPlanAndSolveAgent._execute_step`: a single engine request whose
textual output is returned verbatim, with `""` when the engine yields no
content. -/
def executeStep (resp : Option String) : String := pyOr resp ""

mutual

/-- Python `repr` of a supported literal, as it appears inside a formatted
list.  String escaping is not modelled (faithful for quote-free text). -/
def pyRepr : PyLit → String
  | PyLit.str s => "\x27" ++ s ++ "\x27"
  | PyLit.int n => toString n
  | PyLit.list xs => "[" ++ pyReprItems xs ++ "]"

/-- Comma-separated rendering of the items of a list literal. -/
def pyReprItems : List PyLit → String
  | [] => ""
  | [x] => pyRepr x
  | x :: y :: xs => pyRepr x ++ ", " ++ pyReprItems (y :: xs)

end

/-- Python `str()` of a supported literal, as an f-string interpolates it. -/
def pyStr : PyLit → String
  | PyLit.str s => s
  | PyLit.int n => toString n
  | PyLit.list xs => "[" ++ pyReprItems xs ++ "]"

/-- One record of `self.history`: a step that received a `SUCCESS` verdict
together with its execution result. -/
structure HistoryEntry where
  step : PyLit
  result : String
deriving DecidableEq

/-- History rendering used by `_generate_plan` (empty history is the
sentinel `"无"`). -/
def historyStrGen (hs : List HistoryEntry) : String :=
  if hs = [] then "无"
  else String.intercalate "\n" (hs.map fun h => "- 步骤: " ++ pyStr h.step ++ "\n  结果: " ++ h.result)

/-- History rendering used by `_execute_step` (empty history is the
sentinel `"无"`). -/
def historyStrExec (hs : List HistoryEntry) : String :=
  if hs = [] then "无"
  else String.intercalate "\n" (hs.map fun h => "步骤: " ++ pyStr h.step ++ "\n结果: " ++ h.result)

/-- The numbered plan rendering `"\n".join(f"{i+1}. {s}")` of
`_execute_step`. -/
def planRender (plan : List PyLit) : String :=
  String.intercalate "\n" (plan.enum.map fun p => toString (p.1 + 1) ++ ". " ++ pyStr p.2)

/-- The failure context built at a replan transition:
`f"在执行步骤 '{current_step}' 时失败。\n执行结果/原因: {result}"`. -/
def failureInfo (current_step : PyLit) (result : String) : String :=
  "在执行步骤 \x27" ++ (pyStr current_step ++ ("\x27 时失败。\n执行结果/原因: " ++ result))

/-- One observable engine interaction, with the arguments the agent rendered
into the corresponding prompt. -/
inductive Call where
  | planner (question history failure_info : String)
  | executor (question plan_render history current_step : String)
  | evaluator (question current_step result : String)
deriving DecidableEq

/-- The mutable run-scoped state of `DynamicPlanAndSolveAgent.run`, plus the
append-only log of engine interactions (the oracle is keyed by `log.length`,
the number of engine calls made so far). -/
structure RunState where
  plan : List PyLit
  step_index : Nat
  retry_count : Nat
  replan_count : Nat
  history : List HistoryEntry
  log : List Call
deriving DecidableEq

/-- `DynamicPlanAndSolveAgent.MAX_REPLANS`. -/
def MAX_REPLANS : Nat := 3

/-- `DynamicPlanAndSolveAgent.MAX_RETRIES`. -/
def MAX_RETRIES : Nat := 2

/-- Result of one pass through the `while` body: either the loop continues
with an updated state, or `run` returns with an answer. -/
inductive IterResult where
  | next (s : RunState)
  | halt (answer : String) (s : RunState)

/-- The state carried by an iteration result. -/
def IterResult.state : IterResult → RunState
  | IterResult.next s => s
  | IterResult.halt _ s => s

/-- The answer returned by `run` when the iteration leaves the loop early. -/
def IterResult.haltMsg : IterResult → Option String
  | IterResult.next _ => none
  | IterResult.halt a _ => some a

/-- One pass through the body of `while step_index < len(plan)`:
execute the current step, evaluate the result, then on `SUCCESS` advance, on
`FAILURE_RETRY` within budget retry the same step, otherwise (a direct
`FAILURE_REPLAN` or an escalated retry exhaustion) count a replan and either
abort on budget, abort on an empty new plan, or install the new plan. -/
def loopIter (engine : Nat → Option String) (question : String) (s : RunState) : IterResult :=
  let k := s.log.length
  let current_step := s.plan.getD s.step_index (PyLit.str "")
  let result := executeStep (engine k)
  let evaluation := evaluate (engine (k + 1))
  let log2 := s.log ++
    [Call.executor question (planRender s.plan) (historyStrExec s.history) (pyStr current_step),
     Call.evaluator question (pyStr current_step) result]
  if evaluation = "SUCCESS" then
    IterResult.next { s with
      history := s.history ++ [⟨current_step, result⟩],
      step_index := s.step_index + 1,
      retry_count := 0,
      log := log2 }
  else if evaluation = "FAILURE_RETRY" ∧ s.retry_count + 1 ≤ MAX_RETRIES then
    IterResult.next { s with retry_count := s.retry_count + 1, log := log2 }
  else
    let retry_after := if evaluation = "FAILURE_RETRY" then s.retry_count + 1 else s.retry_count
    if MAX_REPLANS < s.replan_count + 1 then
      IterResult.halt "达到最大重规划次数，任务失败。"
        { s with retry_count := retry_after, replan_count := s.replan_count + 1, log := log2 }
    else
      let log3 := log2 ++
        [Call.planner question (historyStrGen s.history) (failureInfo current_step result)]
      let newPlan := Planner.plan (engine (k + 2))
      if newPlan = [] then
        IterResult.halt "重规划失败，无法生成新计划。"
          { s with retry_count := retry_after, replan_count := s.replan_count + 1, log := log3 }
      else
        IterResult.next { plan := newPlan, step_index := 0, retry_count := 0,
                          replan_count := s.replan_count + 1, history := s.history, log := log3 }

/-- The final answer on normal loop exit:
`self.history[-1]["result"] if self.history else "未能完成任务"`. -/
def finalAnswer (history : List HistoryEntry) : String :=
  match history.getLast? with
  | some e => e.result
  | none => "未能完成任务"

/-- Fuel-indexed unfolding of the `while` loop; `none` means the fuel ran
out before the loop finished. -/
def runLoop (engine : Nat → Option String) (question : String) : Nat → RunState → Option (String × RunState)
  | 0, _ => none
  | Nat.succ fuel, s =>
    if s.step_index < s.plan.length then
      match loopIter engine question s with
      | IterResult.halt ans s' => some (ans, s')
      | IterResult.next s' => runLoop engine question fuel s'
    else
      some (finalAnswer s.history, s)

/-- The state after the reset and the initial planning call of `run`:
history and counters cleared, the initial plan parsed from engine call 0. -/
def initState (engine : Nat → Option String) (question : String) : RunState :=
  { plan := Planner.plan (engine 0), step_index := 0, retry_count := 0,
    replan_count := 0, history := [], log := [Call.planner question "无" "无"] }

/-- `DynamicPlanAndSolveAgent.run`: reset, plan, then drive the loop. -/
def runAgent (engine : Nat → Option String) (question : String) (fuel : Nat) : Option (String × RunState) :=
  let s0 := initState engine question
  if s0.plan = [] then some ("无法生成初始计划。", s0)
  else runLoop engine question fuel s0

/-- Is this log entry a Step Executor request? -/
def isExecCall : Call → Bool
  | Call.executor _ _ _ _ => true
  | _ => false

/-- Number of Step Executor requests in a call log. -/
def execCount (l : List Call) : Nat := (l.filter isExecCall).length

/-- A `FAILURE_REPLAN` transition of the current iteration, direct or
escalated from retry exhaustion. -/
def isReplanTransition (engine : Nat → Option String) (s : RunState) : Prop :=
  evaluate (engine (s.log.length + 1)) = "FAILURE_REPLAN" ∨
    (evaluate (engine (s.log.length + 1)) = "FAILURE_RETRY" ∧ MAX_RETRIES < s.retry_count + 1)

instance (engine : Nat → Option String) (s : RunState) : Decidable (isReplanTransition engine s) := by
  unfold isReplanTransition; infer_instance

/-- Case-insensitive substring test, the specification's reading of the
evaluator's matching policy. -/
def ciContains (hay needle : String) : Bool := pyIn (strUpper needle) (strUpper hay)

/-- The classification policy exactly as the specification states it:
`SUCCESS` before `FAILURE_RETRY` before the `FAILURE_REPLAN` fallback, the
engine-unavailable case included. -/
def evaluateSpec (resp : Option String) : String :=
  match resp with
  | none => "FAILURE_REPLAN"
  | some s =>
    if ciContains s "SUCCESS" then "SUCCESS"
    else if ciContains s "FAILURE_RETRY" then "FAILURE_RETRY"
    else "FAILURE_REPLAN"

/-- Engine trace of a concrete scenario: the current step's third executor
reply, a third `FAILURE_RETRY` verdict, then a replacement plan. -/
def engW : Nat → Option String := fun k =>
  if k = 0 then some "r2c"
  else if k = 1 then some "FAILURE_RETRY"
  else if k = 2 then some "```python\n[\"step three\"]\n```"
  else none

/-- A run state whose current step has already failed `FAILURE_RETRY` twice,
putting the retry counter at the bound. -/
def sW : RunState :=
  { plan := [PyLit.str "step two"], step_index := 0, retry_count := 2,
    replan_count := 0, history := [], log := [] }

/-- Engine trace of a concrete scenario: one successful step. -/
def engS : Nat → Option String := fun k =>
  if k = 0 then some "res1" else if k = 1 then some "SUCCESS" else none

/-- A fresh in-loop state holding a one-step plan. -/
def sS : RunState :=
  { plan := [PyLit.str "step a"], step_index := 0, retry_count := 0,
    replan_count := 0, history := [], log := [] }

/-- Engine trace of a complete happy-path run: initial plan, one executor
reply, one `SUCCESS` verdict. -/
def engR : Nat → Option String := fun k =>
  if k = 0 then some "```python\n[\"step a\"]\n```"
  else if k = 1 then some "ra" else if k = 2 then some "SUCCESS" else none

/-- The final state of the happy-path run driven by `engR`. -/
def stR : RunState :=
  { plan := [PyLit.str "step a"], step_index := 1, retry_count := 0,
    replan_count := 0, history := [⟨PyLit.str "step a", "ra"⟩],
    log := [Call.planner "q" "无" "无",
            Call.executor "q" "1. step a" "无" "step a",
            Call.evaluator "q" "step a" "ra"] }

example : Planner.plan (some "```python\n[\"a\", \"b\"]\n```") = [PyLit.str "a", PyLit.str "b"] := by decide
example : Planner.plan (some "```python\n[1, 2]\n```") = [PyLit.int 1, PyLit.int 2] := by decide
example : Planner.plan (some "no fence [\"a\"]") = [] := by decide
example : Planner.plan (some "```\n[\"a\"]\n```") = [] := by decide
example : Planner.plan none = [] := by decide
example : evaluate (some "well SUCCESS indeed") = "SUCCESS" := by decide
example : evaluate (some "failure_retry") = "FAILURE_RETRY" := by decide
example : evaluate (some "hmm") = "FAILURE_REPLAN" := by decide
example : evaluate none = "FAILURE_REPLAN" := by decide
example : evaluate (some "") = "FAILURE_REPLAN" := by decide
example : executeStep none = "" := by decide


theorem strData_append (a b : String) : (a ++ b).data = a.data ++ b.data := by
  cases a; cases b; rfl

theorem isPrefixOf_self_append (n post : List Char) : n.isPrefixOf (n ++ post) = true := by
  induction n with
  | nil => cases post <;> simp [List.isPrefixOf]
  | cons a as ih => simp [List.isPrefixOf, ih]

theorem infixB_of_isPrefixOf {n l : List Char} (h : n.isPrefixOf l = true) :
    infixB n l = true := by
  cases l with
  | nil =>
    cases n with
    | nil => rfl
    | cons a as => simp [List.isPrefixOf] at h
  | cons c cs => simp [infixB, h]

theorem infixB_sandwich (n pre post : List Char) : infixB n (pre ++ (n ++ post)) = true := by
  induction pre with
  | nil => exact infixB_of_isPrefixOf (isPrefixOf_self_append n post)
  | cons c pre ih => simp [infixB, ih]

theorem pyIn_failureInfo (cstep : PyLit) (result : String) :
    pyIn (pyStr cstep) (failureInfo cstep result) = true := by
  unfold pyIn failureInfo
  rw [strData_append, strData_append]
  exact infixB_sandwich _ _ _

theorem findSplit_eq_none {sep : List Char} :
    ∀ {l : List Char}, infixB sep l = false → findSplit sep l = none := by
  intro l
  induction l with
  | nil =>
    intro h
    simp only [infixB] at h
    simp [findSplit, h]
  | cons c cs ih =>
    intro h
    simp only [infixB, Bool.or_eq_false_iff] at h
    simp [findSplit, h.1, ih h.2]

theorem evaluate_trichotomy (resp : Option String) :
    evaluate resp = "SUCCESS" ∨ evaluate resp = "FAILURE_RETRY" ∨
      evaluate resp = "FAILURE_REPLAN" := by
  simp only [evaluate]
  split_ifs <;> simp

/-- C3: for every engine response (including unavailability), `evaluate`
implements exactly the specification's precedence — `SUCCESS` on a
case-insensitive `"SUCCESS"` occurrence, else `FAILURE_RETRY` on a
`"FAILURE_RETRY"` occurrence, else `FAILURE_REPLAN` — and always returns one
of the three verdicts. -/
theorem evaluator_classification (resp : Option String) :
    evaluate resp = evaluateSpec resp ∧
    (evaluate resp = "SUCCESS" ∨ evaluate resp = "FAILURE_RETRY" ∨
      evaluate resp = "FAILURE_REPLAN") := by
  refine ⟨?_, evaluate_trichotomy resp⟩
  cases resp with
  | none => decide
  | some s =>
    by_cases hs : s = ""
    · subst hs; decide
    · have h1 : strUpper "SUCCESS" = "SUCCESS" := by decide
      have h2 : strUpper "FAILURE_RETRY" = "FAILURE_RETRY" := by decide
      simp only [evaluate, evaluateSpec, ciContains, pyOr, if_neg hs, h1, h2]

/-- C10: the planner recognizes only a fence opened with the exact tag
"```python": any reply with no such tag — a bare "```" fence included —
parses to the empty plan. -/
theorem planner_requires_python_fence (resp : String)
    (h : pyIn "```python" resp = false) :
    Planner.plan (some resp) = [] := by
  by_cases hr : resp = ""
  · subst hr; decide
  · have hs : findSplit pythonFence resp.data = none := findSplit_eq_none h
    simp [Planner.plan, planStrOf, pyOr, hr, hs]

/-- C10 witness: a bare fence holding a perfectly valid string-list literal
still yields the empty plan. -/
theorem planner_requires_python_fence_witness :
    pyIn "```python" "```\n[\"step one\"]\n```" = false ∧
      Planner.plan (some "```\n[\"step one\"]\n```") = [] :=
  ⟨by decide, planner_requires_python_fence "```\n[\"step one\"]\n```" (by decide)⟩

/-- C2 (code bug evidence): a reply whose fenced literal is a list of
integers is returned as a non-empty plan containing no strings at all, so
`Planner.plan` does not guarantee a list of strings as its annotation
(`-> list[str]`), docstring, and the specification state. -/
theorem planner_returns_nonstring_list :
    Planner.plan (some "```python\n[1, 2]\n```") = [PyLit.int 1, PyLit.int 2] ∧
    Planner.plan (some "```python\n[1, 2]\n```") ≠ [] ∧
    ∀ s : String, PyLit.str s ∉ Planner.plan (some "```python\n[1, 2]\n```") := by
  refine ⟨by decide, by decide, ?_⟩
  intro s hmem
  have e : Planner.plan (some "```python\n[1, 2]\n```") = [PyLit.int 1, PyLit.int 2] := by decide
  rw [e] at hmem
  simp at hmem

theorem ne_success_retry : ("SUCCESS" : String) ≠ "FAILURE_RETRY" := by decide

theorem ne_success_replan : ("SUCCESS" : String) ≠ "FAILURE_REPLAN" := by decide

theorem ne_retry_success : ("FAILURE_RETRY" : String) ≠ "SUCCESS" := by decide

theorem ne_retry_replan : ("FAILURE_RETRY" : String) ≠ "FAILURE_REPLAN" := by decide

theorem ne_replan_success : ("FAILURE_REPLAN" : String) ≠ "SUCCESS" := by decide

theorem ne_replan_retry : ("FAILURE_REPLAN" : String) ≠ "FAILURE_RETRY" := by decide

theorem ne_fail_msgs : ("重规划失败，无法生成新计划。" : String) ≠ "达到最大重规划次数，任务失败。" := by decide

/-- C4: within one pass of the loop, the replan counter never decreases,
increases by exactly 1 on every `FAILURE_REPLAN` transition (direct or
escalated from retry exhaustion) and is untouched otherwise, and the run
aborts with the replan-budget message exactly when the incremented counter
would exceed `MAX_REPLANS`. -/
theorem replan_counter_transition (engine : Nat → Option String) (question : String)
    (s : RunState) (hin : s.step_index < s.plan.length) :
    s.replan_count ≤ (loopIter engine question s).state.replan_count ∧
    (isReplanTransition engine s →
      (loopIter engine question s).state.replan_count = s.replan_count + 1) ∧
    (¬ isReplanTransition engine s →
      (loopIter engine question s).state.replan_count = s.replan_count) ∧
    ((loopIter engine question s).haltMsg = some "达到最大重规划次数，任务失败。" ↔
      isReplanTransition engine s ∧ MAX_REPLANS < s.replan_count + 1) := by
  rcases evaluate_trichotomy (engine (s.log.length + 1)) with hv | hv | hv
  · simp [loopIter, hv, isReplanTransition, IterResult.state, IterResult.haltMsg,
      ne_success_retry, ne_success_replan]
  · by_cases hr : s.retry_count + 1 ≤ MAX_RETRIES
    · have hnl : ¬ MAX_RETRIES < s.retry_count + 1 := by omega
      simp [loopIter, hv, hr, isReplanTransition, IterResult.state, IterResult.haltMsg,
        ne_retry_success, ne_retry_replan, hnl]
    · have hlt : MAX_RETRIES < s.retry_count + 1 := by omega
      by_cases hb : MAX_REPLANS < s.replan_count + 1
      · simp [loopIter, hv, hr, hb, hlt, isReplanTransition, IterResult.state,
          IterResult.haltMsg, ne_retry_success, ne_retry_replan]
      · by_cases hnp : Planner.plan (engine (s.log.length + 2)) = []
        · simp [loopIter, hv, hr, hb, hlt, hnp, isReplanTransition, IterResult.state,
            IterResult.haltMsg, ne_retry_success, ne_retry_replan, ne_fail_msgs]
        · simp [loopIter, hv, hr, hb, hlt, hnp, isReplanTransition, IterResult.state,
            IterResult.haltMsg, ne_retry_success, ne_retry_replan]
  · by_cases hb : MAX_REPLANS < s.replan_count + 1
    · simp [loopIter, hv, hb, isReplanTransition, IterResult.state, IterResult.haltMsg,
        ne_replan_success, ne_replan_retry]
    · by_cases hnp : Planner.plan (engine (s.log.length + 2)) = []
      · simp [loopIter, hv, hb, hnp, isReplanTransition, IterResult.state,
          IterResult.haltMsg, ne_replan_success, ne_replan_retry, ne_fail_msgs]
      · simp [loopIter, hv, hb, hnp, isReplanTransition, IterResult.state,
          IterResult.haltMsg, ne_replan_success, ne_replan_retry]

/-- C5: a replan transition that stays within budget and yields a non-empty
new plan replaces the active plan wholesale and resets both `step_index` and
the per-step retry counter to 0; on any non-replan transition the active
plan is kept and `step_index` never decreases. -/
theorem replan_resets_plan_and_indices (engine : Nat → Option String) (question : String)
    (s : RunState) (hin : s.step_index < s.plan.length) :
    (isReplanTransition engine s → s.replan_count + 1 ≤ MAX_REPLANS →
      Planner.plan (engine (s.log.length + 2)) ≠ [] →
      (loopIter engine question s).state.plan = Planner.plan (engine (s.log.length + 2)) ∧
      (loopIter engine question s).state.step_index = 0 ∧
      (loopIter engine question s).state.retry_count = 0) ∧
    (¬ isReplanTransition engine s →
      (loopIter engine question s).state.plan = s.plan ∧
      s.step_index ≤ (loopIter engine question s).state.step_index) := by
  rcases evaluate_trichotomy (engine (s.log.length + 1)) with hv | hv | hv
  · simp [loopIter, hv, isReplanTransition, IterResult.state,
      ne_success_retry, ne_success_replan]
  · by_cases hr : s.retry_count + 1 ≤ MAX_RETRIES
    · have hnl : ¬ MAX_RETRIES < s.retry_count + 1 := by omega
      simp [loopIter, hv, hr, isReplanTransition, IterResult.state,
        ne_retry_success, ne_retry_replan, hnl]
    · have hlt : MAX_RETRIES < s.retry_count + 1 := by omega
      constructor
      · intro _ hbudget hnp
        have hb : ¬ MAX_REPLANS < s.replan_count + 1 := by omega
        simp [loopIter, hv, hr, hb, hnp, IterResult.state, ne_retry_success]
      · intro hnotr
        exact absurd (Or.inr ⟨hv, hlt⟩) hnotr
  · constructor
    · intro _ hbudget hnp
      have hb : ¬ MAX_REPLANS < s.replan_count + 1 := by omega
      simp [loopIter, hv, hb, hnp, IterResult.state, ne_replan_success, ne_replan_retry]
    · intro hnotr
      exact absurd (Or.inl hv) hnotr

/-- C1: with the retry bound `MAX_RETRIES = 2`, when a step that has already
failed `FAILURE_RETRY` twice (retry counter at the bound) is evaluated
`FAILURE_RETRY` a third time within replan budget, the iteration's calls are
exactly one executor call, one evaluator call and then a planner call whose
failure context contains the step's description: the verdict is escalated to
a replan (counter + 1) and the step is never re-executed before the replan. -/
theorem retry_exhaustion_escalates_to_replan (engine : Nat → Option String)
    (question : String) (s : RunState)
    (hin : s.step_index < s.plan.length)
    (hretry : s.retry_count = MAX_RETRIES)
    (hv : evaluate (engine (s.log.length + 1)) = "FAILURE_RETRY")
    (hbudget : s.replan_count + 1 ≤ MAX_REPLANS) :
    (loopIter engine question s).state.log =
      s.log ++
        [Call.executor question (planRender s.plan) (historyStrExec s.history)
           (pyStr (s.plan.getD s.step_index (PyLit.str ""))),
         Call.evaluator question (pyStr (s.plan.getD s.step_index (PyLit.str "")))
           (executeStep (engine s.log.length)),
         Call.planner question (historyStrGen s.history)
           (failureInfo (s.plan.getD s.step_index (PyLit.str ""))
             (executeStep (engine s.log.length)))] ∧
    execCount (loopIter engine question s).state.log = execCount s.log + 1 ∧
    (loopIter engine question s).state.replan_count = s.replan_count + 1 ∧
    pyIn (pyStr (s.plan.getD s.step_index (PyLit.str "")))
      (failureInfo (s.plan.getD s.step_index (PyLit.str ""))
        (executeStep (engine s.log.length))) = true := by
  have hr : ¬ s.retry_count + 1 ≤ MAX_RETRIES := by omega
  have hb : ¬ MAX_REPLANS < s.replan_count + 1 := by omega
  refine ⟨?_, ?_, ?_, pyIn_failureInfo _ _⟩ <;>
    by_cases hnp : Planner.plan (engine (s.log.length + 2)) = [] <;>
      simp [loopIter, hv, hr, hb, hnp, IterResult.state, ne_retry_success,
        execCount, isExecCall]

/-- C7: the Step Executor returns the engine's output verbatim — the empty
string, never a null value, when the engine yields no content — and each
pass of the loop issues exactly one executor request, so no retry happens
inside the executor itself. -/
theorem executor_single_request_verbatim (engine : Nat → Option String)
    (question : String) (s : RunState) (resp : Option String)
    (hin : s.step_index < s.plan.length) :
    (executeStep resp = match resp with | none => "" | some t => t) ∧
    execCount (loopIter engine question s).state.log = execCount s.log + 1 := by
  constructor
  · cases resp with
    | none => rfl
    | some t =>
      by_cases ht : t = ""
      · subst ht; rfl
      · simp [executeStep, pyOr, ht]
  · rcases evaluate_trichotomy (engine (s.log.length + 1)) with hv | hv | hv
    · simp [loopIter, hv, IterResult.state, execCount, isExecCall,
        ne_success_retry, ne_success_replan]
    · by_cases hr : s.retry_count + 1 ≤ MAX_RETRIES
      · simp [loopIter, hv, hr, IterResult.state, execCount, isExecCall, ne_retry_success]
      · by_cases hb : MAX_REPLANS < s.replan_count + 1
        · simp [loopIter, hv, hr, hb, IterResult.state, execCount, isExecCall,
            ne_retry_success]
        · by_cases hnp : Planner.plan (engine (s.log.length + 2)) = [] <;>
            simp [loopIter, hv, hr, hb, hnp, IterResult.state, execCount, isExecCall,
              ne_retry_success]
    · by_cases hb : MAX_REPLANS < s.replan_count + 1
      · simp [loopIter, hv, hb, IterResult.state, execCount, isExecCall,
          ne_replan_success, ne_replan_retry]
      · by_cases hnp : Planner.plan (engine (s.log.length + 2)) = [] <;>
          simp [loopIter, hv, hb, hnp, IterResult.state, execCount, isExecCall,
            ne_replan_success, ne_replan_retry]

/-- C8: in each pass of the loop a history entry — the current step paired
with its execution result — is appended exactly when the verdict is
`SUCCESS` and the history is untouched on any other verdict (so history is
append-only and ordered by `SUCCESS` chronology), and a fresh top-level run
starts with the history reset to empty. -/
theorem history_append_on_success_only (engine : Nat → Option String)
    (question : String) (s : RunState)
    (hin : s.step_index < s.plan.length) :
    (evaluate (engine (s.log.length + 1)) = "SUCCESS" →
      (loopIter engine question s).state.history =
        s.history ++ [⟨s.plan.getD s.step_index (PyLit.str ""),
                       executeStep (engine s.log.length)⟩]) ∧
    (evaluate (engine (s.log.length + 1)) ≠ "SUCCESS" →
      (loopIter engine question s).state.history = s.history) ∧
    (initState engine question).history = [] := by
  refine ⟨?_, ?_, rfl⟩
  · intro hv
    simp [loopIter, hv, IterResult.state]
  · intro hnv
    rcases evaluate_trichotomy (engine (s.log.length + 1)) with hv | hv | hv
    · exact absurd hv hnv
    · by_cases hr : s.retry_count + 1 ≤ MAX_RETRIES
      · simp [loopIter, hv, hr, IterResult.state, ne_retry_success]
      · by_cases hb : MAX_REPLANS < s.replan_count + 1
        · simp [loopIter, hv, hr, hb, IterResult.state, ne_retry_success]
        · by_cases hnp : Planner.plan (engine (s.log.length + 2)) = [] <;>
            simp [loopIter, hv, hr, hb, hnp, IterResult.state, ne_retry_success]
    · by_cases hb : MAX_REPLANS < s.replan_count + 1
      · simp [loopIter, hv, hb, IterResult.state, ne_replan_success, ne_replan_retry]
      · by_cases hnp : Planner.plan (engine (s.log.length + 2)) = [] <;>
          simp [loopIter, hv, hb, hnp, IterResult.state, ne_replan_success, ne_replan_retry]

theorem loopIter_halt_fields (engine : Nat → Option String) (question : String)
    (s : RunState) (a : String) (s' : RunState)
    (h : loopIter engine question s = IterResult.halt a s') :
    s'.step_index = s.step_index ∧ s'.plan = s.plan := by
  rcases evaluate_trichotomy (engine (s.log.length + 1)) with hv | hv | hv
  · simp [loopIter, hv, ne_success_retry, ne_success_replan] at h
  · by_cases hr : s.retry_count + 1 ≤ MAX_RETRIES
    · simp [loopIter, hv, hr, ne_retry_success] at h
    · by_cases hb : MAX_REPLANS < s.replan_count + 1
      · simp [loopIter, hv, hr, hb, ne_retry_success] at h
        rcases h with ⟨-, h2⟩
        subst h2
        exact ⟨rfl, rfl⟩
      · by_cases hnp : Planner.plan (engine (s.log.length + 2)) = []
        · simp [loopIter, hv, hr, hb, hnp, ne_retry_success] at h
          rcases h with ⟨-, h2⟩
          subst h2
          exact ⟨rfl, rfl⟩
        · simp [loopIter, hv, hr, hb, hnp, ne_retry_success] at h
  · by_cases hb : MAX_REPLANS < s.replan_count + 1
    · simp [loopIter, hv, hb, ne_replan_success, ne_replan_retry] at h
      rcases h with ⟨-, h2⟩
      subst h2
      exact ⟨rfl, rfl⟩
    · by_cases hnp : Planner.plan (engine (s.log.length + 2)) = []
      · simp [loopIter, hv, hb, hnp, ne_replan_success, ne_replan_retry] at h
        rcases h with ⟨-, h2⟩
        subst h2
        exact ⟨rfl, rfl⟩
      · simp [loopIter, hv, hb, hnp, ne_replan_success, ne_replan_retry] at h

theorem runLoop_normal_exit (engine : Nat → Option String) (question : String) :
    ∀ (fuel : Nat) (s : RunState) (ans : String) (st : RunState),
      runLoop engine question fuel s = some (ans, st) →
      ¬ st.step_index < st.plan.length →
      ans = finalAnswer st.history := by
  intro fuel
  induction fuel with
  | zero =>
    intro s ans st h hd
    simp [runLoop] at h
  | succ fuel ih =>
    intro s ans st h hd
    by_cases hin : s.step_index < s.plan.length
    · rw [runLoop] at h
      rw [if_pos hin] at h
      cases hiter : loopIter engine question s with
      | halt a s' =>
        rw [hiter] at h
        simp at h
        rcases h with ⟨h1, h2⟩
        have hf := loopIter_halt_fields engine question s a s' hiter
        rw [← h2] at hd
        rw [hf.1, hf.2] at hd
        exact absurd hin hd
      | next s' =>
        rw [hiter] at h
        exact ih s' ans st h hd
    · rw [runLoop] at h
      rw [if_neg hin] at h
      simp at h
      rcases h with ⟨h1, h2⟩
      rw [← h2]
      exact h1.symm

/-- C6: a run whose loop exits normally (DONE_SUCCESS) returns the result
text of the last history entry, and the sentinel "未能完成任务" when the
history is empty. -/
theorem done_success_returns_last_history_result (engine : Nat → Option String)
    (question : String) (fuel : Nat) (ans : String) (st : RunState)
    (hrun : runAgent engine question fuel = some (ans, st))
    (hplan : st.plan ≠ [])
    (hdone : ¬ st.step_index < st.plan.length) :
    ans = finalAnswer st.history ∧
    (st.history = [] → ans = "未能完成任务") ∧
    (∀ e, st.history.getLast? = some e → ans = e.result) := by
  have hmain : ans = finalAnswer st.history := by
    by_cases h0 : (initState engine question).plan = []
    · simp [runAgent, h0] at hrun
      rcases hrun with ⟨-, h2⟩
      rw [h2] at h0
      exact absurd h0 hplan
    · simp only [runAgent] at hrun
      rw [if_neg h0] at hrun
      exact runLoop_normal_exit engine question fuel _ ans st hrun hdone
  refine ⟨hmain, ?_, ?_⟩
  · intro he
    rw [hmain, he]
    rfl
  · intro e he
    rw [hmain]
    unfold finalAnswer
    rw [he]

theorem loopIter_next_cases (engine : Nat → Option String) (question : String)
    (s s' : RunState) (h : loopIter engine question s = IterResult.next s') :
    (s'.plan = s.plan ∧ s'.step_index = s.step_index + 1 ∧
      s'.replan_count = s.replan_count) ∨
    (s'.plan = s.plan ∧ s'.step_index = s.step_index ∧
      s'.retry_count = s.retry_count + 1 ∧ s.retry_count + 1 ≤ MAX_RETRIES ∧
      s'.replan_count = s.replan_count) ∨
    (s'.replan_count = s.replan_count + 1 ∧ s.replan_count + 1 ≤ MAX_REPLANS) := by
  rcases evaluate_trichotomy (engine (s.log.length + 1)) with hv | hv | hv
  · left
    simp [loopIter, hv, ne_success_retry, ne_success_replan] at h
    subst h
    exact ⟨rfl, rfl, rfl⟩
  · by_cases hr : s.retry_count + 1 ≤ MAX_RETRIES
    · right; left
      simp [loopIter, hv, hr, ne_retry_success] at h
      subst h
      exact ⟨rfl, rfl, rfl, hr, rfl⟩
    · right; right
      by_cases hb : MAX_REPLANS < s.replan_count + 1
      · simp [loopIter, hv, hr, hb, ne_retry_success] at h
      · by_cases hnp : Planner.plan (engine (s.log.length + 2)) = []
        · simp [loopIter, hv, hr, hb, hnp, ne_retry_success] at h
        · simp [loopIter, hv, hr, hb, hnp, ne_retry_success] at h
          subst h
          exact ⟨rfl, by omega⟩
  · right; right
    by_cases hb : MAX_REPLANS < s.replan_count + 1
    · simp [loopIter, hv, hb, ne_replan_success, ne_replan_retry] at h
    · by_cases hnp : Planner.plan (engine (s.log.length + 2)) = []
      · simp [loopIter, hv, hb, hnp, ne_replan_success, ne_replan_retry] at h
      · simp [loopIter, hv, hb, hnp, ne_replan_success, ne_replan_retry] at h
        subst h
        exact ⟨rfl, by omega⟩

theorem runLoop_term_inner (engine : Nat → Option String) (question : String) (r : Nat)
    (ihr : ∀ s' : RunState, MAX_REPLANS + 1 - s'.replan_count < r →
      ∃ fuel ans st, runLoop engine question fuel s' = some (ans, st)) :
    ∀ p t s, MAX_REPLANS + 1 - s.replan_count ≤ r →
      s.plan.length - s.step_index ≤ p →
      MAX_RETRIES + 1 - s.retry_count ≤ t →
      ∃ fuel ans st, runLoop engine question fuel s = some (ans, st) := by
  intro p
  induction p with
  | zero =>
    intro t s hr hp ht
    by_cases hin : s.step_index < s.plan.length
    · exact absurd hin (by omega)
    · exact ⟨1, finalAnswer s.history, s, by simp [runLoop, hin]⟩
  | succ p ihp =>
    intro t
    induction t with
    | zero =>
      intro s hr hp ht
      by_cases hin : s.step_index < s.plan.length
      · cases hiter : loopIter engine question s with
        | halt a s' => exact ⟨1, a, s', by simp [runLoop, hin, hiter]⟩
        | next s' =>
          rcases loopIter_next_cases engine question s s' hiter with h1 | h1 | h1
          · have e1 : s'.plan.length = s.plan.length := by rw [h1.1]
            obtain ⟨fuel, ans, st, hrl⟩ :=
              ihp (MAX_RETRIES + 1) s' (by omega) (by omega) (by omega)
            exact ⟨fuel + 1, ans, st, by rw [runLoop, if_pos hin, hiter]; exact hrl⟩
          · exact absurd h1.2.2.2.1 (by omega)
          · obtain ⟨fuel, ans, st, hrl⟩ := ihr s' (by omega)
            exact ⟨fuel + 1, ans, st, by rw [runLoop, if_pos hin, hiter]; exact hrl⟩
      · exact ⟨1, finalAnswer s.history, s, by simp [runLoop, hin]⟩
    | succ t iht =>
      intro s hr hp ht
      by_cases hin : s.step_index < s.plan.length
      · cases hiter : loopIter engine question s with
        | halt a s' => exact ⟨1, a, s', by simp [runLoop, hin, hiter]⟩
        | next s' =>
          rcases loopIter_next_cases engine question s s' hiter with h1 | h1 | h1
          · have e1 : s'.plan.length = s.plan.length := by rw [h1.1]
            obtain ⟨fuel, ans, st, hrl⟩ :=
              ihp (MAX_RETRIES + 1) s' (by omega) (by omega) (by omega)
            exact ⟨fuel + 1, ans, st, by rw [runLoop, if_pos hin, hiter]; exact hrl⟩
          · have e1 : s'.plan.length = s.plan.length := by rw [h1.1]
            obtain ⟨fuel, ans, st, hrl⟩ := iht s' (by omega) (by omega) (by omega)
            exact ⟨fuel + 1, ans, st, by rw [runLoop, if_pos hin, hiter]; exact hrl⟩
          · obtain ⟨fuel, ans, st, hrl⟩ := ihr s' (by omega)
            exact ⟨fuel + 1, ans, st, by rw [runLoop, if_pos hin, hiter]; exact hrl⟩
      · exact ⟨1, finalAnswer s.history, s, by simp [runLoop, hin]⟩

theorem runLoop_total (engine : Nat → Option String) (question : String) (s : RunState) :
    ∃ fuel ans st, runLoop engine question fuel s = some (ans, st) := by
  suffices h : ∀ r, ∀ s : RunState, MAX_REPLANS + 1 - s.replan_count ≤ r →
      ∃ fuel ans st, runLoop engine question fuel s = some (ans, st) by
    exact h (MAX_REPLANS + 1) s (by omega)
  intro r
  induction r with
  | zero =>
    intro s hr
    exact runLoop_term_inner engine question 0
      (fun s' h' => absurd h' (by omega))
      s.plan.length (MAX_RETRIES + 1) s hr (by omega) (by omega)
  | succ r ihr =>
    intro s hr
    exact runLoop_term_inner engine question (r + 1)
      (fun s' h' => ihr s' (by omega))
      s.plan.length (MAX_RETRIES + 1) s hr (by omega) (by omega)

/-- C9: for every goal and every engine behavior, the run terminates — some
finite fuel makes `runAgent` return a final answer, because the retry bound,
the replan bound and the finite plans make every loop transition decrease
a well-founded measure. -/
theorem run_terminates (engine : Nat → Option String) (question : String) :
    ∃ fuel ans st, runAgent engine question fuel = some (ans, st) := by
  by_cases h0 : (initState engine question).plan = []
  · exact ⟨1, "无法生成初始计划。", initState engine question, by simp [runAgent, h0]⟩
  · obtain ⟨fuel, ans, st, h⟩ := runLoop_total engine question (initState engine question)
    exact ⟨fuel, ans, st, by simp only [runAgent]; rw [if_neg h0]; exact h⟩

/-- C1 witness: the concrete escalation scenario, retry counter at the
bound and a third `FAILURE_RETRY` verdict. -/
theorem retry_exhaustion_escalates_to_replan_witness :
    sW.step_index < sW.plan.length ∧ sW.retry_count = MAX_RETRIES ∧
    evaluate (engW (sW.log.length + 1)) = "FAILURE_RETRY" ∧
    sW.replan_count + 1 ≤ MAX_REPLANS ∧
    ((loopIter engW "q" sW).state.log =
      sW.log ++
        [Call.executor "q" (planRender sW.plan) (historyStrExec sW.history)
           (pyStr (sW.plan.getD sW.step_index (PyLit.str ""))),
         Call.evaluator "q" (pyStr (sW.plan.getD sW.step_index (PyLit.str "")))
           (executeStep (engW sW.log.length)),
         Call.planner "q" (historyStrGen sW.history)
           (failureInfo (sW.plan.getD sW.step_index (PyLit.str ""))
             (executeStep (engW sW.log.length)))] ∧
     execCount (loopIter engW "q" sW).state.log = execCount sW.log + 1 ∧
     (loopIter engW "q" sW).state.replan_count = sW.replan_count + 1 ∧
     pyIn (pyStr (sW.plan.getD sW.step_index (PyLit.str "")))
       (failureInfo (sW.plan.getD sW.step_index (PyLit.str ""))
         (executeStep (engW sW.log.length))) = true) :=
  ⟨by decide, by decide, by decide, by decide,
   retry_exhaustion_escalates_to_replan engW "q" sW (by decide) (by decide)
     (by decide) (by decide)⟩

/-- C4 witness: the replan-counter facts at the concrete escalation
scenario. -/
theorem replan_counter_transition_witness :
    sW.step_index < sW.plan.length ∧
    (sW.replan_count ≤ (loopIter engW "q" sW).state.replan_count ∧
     (isReplanTransition engW sW →
       (loopIter engW "q" sW).state.replan_count = sW.replan_count + 1) ∧
     (¬ isReplanTransition engW sW →
       (loopIter engW "q" sW).state.replan_count = sW.replan_count) ∧
     ((loopIter engW "q" sW).haltMsg = some "达到最大重规划次数，任务失败。" ↔
       isReplanTransition engW sW ∧ MAX_REPLANS < sW.replan_count + 1)) :=
  ⟨by decide, replan_counter_transition engW "q" sW (by decide)⟩

/-- C5 witness: the replan at the concrete escalation scenario installs the
new one-step plan and resets the cursor and retry counter. -/
theorem replan_resets_plan_and_indices_witness :
    sW.step_index < sW.plan.length ∧
    ((isReplanTransition engW sW → sW.replan_count + 1 ≤ MAX_REPLANS →
      Planner.plan (engW (sW.log.length + 2)) ≠ [] →
      (loopIter engW "q" sW).state.plan = Planner.plan (engW (sW.log.length + 2)) ∧
      (loopIter engW "q" sW).state.step_index = 0 ∧
      (loopIter engW "q" sW).state.retry_count = 0) ∧
     (¬ isReplanTransition engW sW →
      (loopIter engW "q" sW).state.plan = sW.plan ∧
      sW.step_index ≤ (loopIter engW "q" sW).state.step_index)) :=
  ⟨by decide, replan_resets_plan_and_indices engW "q" sW (by decide)⟩

/-- C7 witness: the executor contract at a concrete response and a concrete
in-loop state. -/
theorem executor_single_request_verbatim_witness :
    sS.step_index < sS.plan.length ∧
    ((executeStep (some "res1") =
       match (some "res1" : Option String) with | none => "" | some t => t) ∧
     execCount (loopIter engS "q" sS).state.log = execCount sS.log + 1) :=
  ⟨by decide, executor_single_request_verbatim engS "q" sS (some "res1") (by decide)⟩

/-- C8 witness: the history facts at a concrete successful step. -/
theorem history_append_on_success_only_witness :
    sS.step_index < sS.plan.length ∧
    ((evaluate (engS (sS.log.length + 1)) = "SUCCESS" →
      (loopIter engS "q" sS).state.history =
        sS.history ++ [⟨sS.plan.getD sS.step_index (PyLit.str ""),
                        executeStep (engS sS.log.length)⟩]) ∧
     (evaluate (engS (sS.log.length + 1)) ≠ "SUCCESS" →
      (loopIter engS "q" sS).state.history = sS.history) ∧
     (initState engS "q").history = []) :=
  ⟨by decide, history_append_on_success_only engS "q" sS (by decide)⟩

/-- C6 witness: the happy-path run returns the last history entry's result
text. -/
theorem done_success_returns_last_history_result_witness :
    runAgent engR "q" 2 = some ("ra", stR) ∧ stR.plan ≠ [] ∧
    ¬ stR.step_index < stR.plan.length ∧
    ("ra" = finalAnswer stR.history ∧
     (stR.history = [] → "ra" = "未能完成任务") ∧
     (∀ e, stR.history.getLast? = some e → "ra" = e.result)) :=
  ⟨by decide, by decide, by decide,
   done_success_returns_last_history_result engR "q" 2 "ra" stR (by decide)
     (by decide) (by decide)⟩
